import Mathlib

/-!
Verification of the coda LLM completion layer.

The development embeds, from the Go sources:
- the shared error taxonomy and LLMError chain (internal/llm errors file),
- the retry loop of completer.Complete and the fallback loop of
  completer.CompleteWithFallback (internal/llm completer file),
- the provider clients' message translation and error mapping
  (internal/llm/openai/openai.go and the ollama client),
- the model registry (RegisterLLM / NewRegistry),
- the telemetry fan-out around a successful completion (sendTraceEvents
  and the langfuse client's Ingest).

Go errors are modelled as a tree (GoError) mirroring the Unwrap chain;
errors.Is and errors.As become recursive walks of that tree.  Durations
are nanosecond naturals (time.Duration values are nonnegative here); the
float64 backoff factor is a rational, and the Go conversion
time.Duration(float64(wait) * Factor) is floor division by the factor's
denominator.  Wall-clock values (timestamps, latencies) are not modelled.
-/

/-! ## Messages (internal/llm message file) -/

/-- Role constant: RoleSystem = "system". -/
def RoleSystem : String := "system"

/-- Role constant: RoleUser = "user". -/
def RoleUser : String := "user"

/-- Role constant: RoleAssistant = "assistant". -/
def RoleAssistant : String := "assistant"

/-- Role constant: RoleFunction = "function". -/
def RoleFunction : String := "function"

/-- A single conversation message.  Fields not used by any claim
(function-call payload, error marker, timestamp, metadata) are omitted;
Role is a Go string, so unknown roles are representable. -/
structure Message where
  role : String
  content : String
  name : String := ""
  finishReason : String := ""
  completed : Bool := false
  deriving DecidableEq

/-- Token usage counts of a completion. -/
structure Usage where
  unit : String := ""
  promptTokens : Nat := 0
  completionTokens : Nat := 0
  totalTokens : Nat := 0
  deriving DecidableEq

/-- Completion metadata (wall-clock fields ProcessedAt / LatencyMs omitted). -/
structure CompletionMetadata where
  modelName : String := ""
  finishReason : String := ""
  completionID : String := ""
  deriving DecidableEq

/-- Request envelope of a completion call. -/
structure CompleteParams where
  messages : List Message
  maxTokens : Option Nat := none
  temperature : Option ℚ := none
  topP : Option ℚ := none
  n : Option Nat := none
  stream : Bool := false
  jsonMode : Bool := false
  deriving DecidableEq

/-- Response envelope of a completion call. -/
structure CompleteResponse where
  messages : List Message
  usage : Option Usage := none
  metadata : CompletionMetadata := {}
  deriving DecidableEq

/-! ## Error taxonomy (shared errors file) -/

/-- The sentinel error values created with errors.New in the llm package,
context's two errors, a constructor for a provider SDK's raw API error
value, and a catch-all for other plain Go errors. -/
inductive BaseErr where
  | tokenLimitReached
  | contextLengthExceeded
  | invalidArguments
  | noMessages
  | invalidAPIKey
  | authenticationFailed
  | serviceUnavailable
  | tooManyRequests
  | timeout
  | rateLimited
  | contentFiltered
  | contentNotAllowed
  | modelNotFound
  | modelOverloaded
  | invalidFunctionCall
  | functionNotFound
  | internalError
  | canceled
  | deadlineExceeded
  | apiRaw (statusCode : Nat) (code : String)
  | other (msg : String)
  deriving DecidableEq

/-- A Go error value as seen through its Unwrap chain: a base error, an
LLMError (whose Unwrap returns its Err field), an error produced by
fmt.Errorf with a %w verb, or fmt.Errorf wrapping a nil error (its
Unwrap chain is empty). -/
inductive GoError where
  | base (e : BaseErr)
  | llmError (provider modelName : String) (statusCode : Nat)
      (errorCode errorMessage : String) (retryable : Bool) (err : GoError)
  | wrap (msg : String) (err : GoError)
  | wrapNil (msg : String)
  deriving DecidableEq

/-- errors.Is against a sentinel: walk the Unwrap chain looking for the
target base error.  An LLMError or fmt.Errorf node itself never equals a
sentinel created by errors.New. -/
def errorsIs : GoError → BaseErr → Bool
  | .base b, t => b == t
  | .llmError _ _ _ _ _ _ inner, t => errorsIs inner t
  | .wrap _ inner, t => errorsIs inner t
  | .wrapNil _, _ => false

/-- errors.As with target type LLMError, projected to the Retryable
field of the first LLMError found in the Unwrap chain. -/
def errorsAsLLMRetryable : GoError → Option Bool
  | .base _ => none
  | .llmError _ _ _ _ _ r _ => some r
  | .wrap _ inner => errorsAsLLMRetryable inner
  | .wrapNil _ => none

/-- IsRetryable from the errors file: the Retryable flag of the first
LLMError in the chain, else membership among the default retryable
sentinels. -/
def IsRetryable (err : GoError) : Bool :=
  match errorsAsLLMRetryable err with
  | some r => r
  | none =>
    errorsIs err .serviceUnavailable || errorsIs err .tooManyRequests ||
      errorsIs err .timeout || errorsIs err .rateLimited ||
      errorsIs err .modelOverloaded

/-- isRetryableError from the completer file: the predicate the retry
loop actually consults.  Note it checks context.DeadlineExceeded, not
the taxonomy's ErrTimeout, and ignores the LLMError Retryable flag. -/
def isRetryableError (err : GoError) : Bool :=
  errorsIs err .serviceUnavailable || errorsIs err .tooManyRequests ||
    errorsIs err .deadlineExceeded

/-! ## Retry configuration (completer file) -/

/-- Retry policy.  MaxAttempts is a Go int (may be nonpositive); waits
are nanoseconds; Factor is the float64 backoff factor as a rational. -/
structure RetryConfig where
  maxAttempts : Int
  initialWait : Nat
  maxWait : Nat
  factor : ℚ
  deriving DecidableEq

/-- DefaultRetryConfig: 3 attempts, 500ms initial wait, 5s max wait,
factor 1.5. -/
def DefaultRetryConfig : RetryConfig :=
  { maxAttempts := 3
    initialWait := 500000000
    maxWait := 5000000000
    factor := mkRat 3 2 }

/-- One backoff update: wait = time.Duration(float64(wait) * Factor),
then capped at MaxWait.  For wait ≥ 0 and factor = num/den ≥ 0 the Go
truncation toward zero is exactly floor division. -/
def nextWait (rc : RetryConfig) (wait : Nat) : Nat :=
  min (wait * rc.factor.num.toNat / rc.factor.den) rc.maxWait

/-- The wait variable's value after k backoff updates, starting from
InitialWait. -/
def backoffW (rc : RetryConfig) : Nat → Nat
  | 0 => rc.initialWait
  | k + 1 => nextWait rc (backoffW rc k)

/-! ## The retry loop of completer.Complete -/

/-- Environment of one Complete call: the outcome the provider client
returns for each attempt index, and the caller context's cancellation
signal as observed at the loop's two check points.  attemptResult i is
the value of llm.Complete at the i-th attempt (the client returns a nil
response exactly when it returns an error); cancelBefore i tells whether
ctx.Err() is non-nil at the check at the top of iteration i;
cancelInWait i tells whether ctx.Done() fires before time.After(wait) in
the backoff select preceding attempt i (read only for i ≥ 1); cancelErr
is the value of ctx.Err() once the context is done. -/
structure CompleterEnv where
  attemptResult : Nat → Except GoError CompleteResponse
  cancelBefore : Nat → Bool
  cancelInWait : Nat → Bool
  cancelErr : GoError

/-- Outcome of the Complete retry loop including its final validation:
a response, an error, or the nil-pointer dereference that evaluating
len(res.Messages) performs when the loop never ran and res is nil. -/
inductive CompleteResult where
  | ok (r : CompleteResponse)
  | err (e : GoError)
  | nilPanic
  deriving DecidableEq

/-- fmt.Errorf("msg: %w", err) where err may be Go nil. -/
def wrapLast (msg : String) : Option GoError → GoError
  | some e => .wrap msg e
  | none => .wrapNil msg

/-- The code after the loop (completer file): if err != nil, return the
last error wrapped with the all-attempts-failed marker; otherwise
validate res.Messages (dereferencing res, which is nil if the loop body
never ran) and return ErrNoMessages on an empty message list. -/
def mkFinal (res : Option CompleteResponse) (err lastErr : Option GoError) :
    CompleteResult :=
  match err with
  | some _ => .err (wrapLast "all completion attempts failed" lastErr)
  | none =>
    match res with
    | none => .nilPanic
    | some r => if r.messages.length == 0 then .err (.base .noMessages) else .ok r

/-- Trace of one execution of the retry loop: the backoff waits actually
slept, the number of provider attempts issued, and the returned value. -/
structure LoopOut where
  waits : List Nat
  calls : Nat
  result : CompleteResult
  deriving DecidableEq

/-- The retry loop body, one constructor per remaining loop iteration
(remaining = MaxAttempts - attempt, so the loop guard attempt <
MaxAttempts is the pattern match on remaining).  Each iteration checks
ctx.Err(), then for a retry waits in a select between ctx.Done() and
time.After(wait) — updating wait only when the timer fires — then calls
the client; a nil error or a non-retryable error breaks the loop. -/
def loopGo (rc : RetryConfig) (env : CompleterEnv) :
    Nat → Nat → Nat → Option GoError → Option CompleteResponse →
      Option GoError → LoopOut
  | 0, _, _, lastErr, res, err => ⟨[], 0, mkFinal res err lastErr⟩
  | remaining + 1, attempt, wait, lastErr, _, _ =>
    if env.cancelBefore attempt then ⟨[], 0, .err env.cancelErr⟩
    else if attempt == 0 then
      match env.attemptResult attempt with
      | .ok r => ⟨[], 1, mkFinal (some r) none lastErr⟩
      | .error e =>
        if isRetryableError e then
          let out := loopGo rc env remaining (attempt + 1) wait (some e) none (some e)
          ⟨out.waits, out.calls + 1, out.result⟩
        else ⟨[], 1, mkFinal none (some e) (some e)⟩
    else if env.cancelInWait attempt then ⟨[], 0, .err env.cancelErr⟩
    else
      match env.attemptResult attempt with
      | .ok r => ⟨[wait], 1, mkFinal (some r) none lastErr⟩
      | .error e =>
        if isRetryableError e then
          let out := loopGo rc env remaining (attempt + 1) (nextWait rc wait)
            (some e) none (some e)
          ⟨wait :: out.waits, out.calls + 1, out.result⟩
        else ⟨[wait], 1, mkFinal none (some e) (some e)⟩

/-- The retry portion of completer.Complete: run the loop from attempt 0
with wait = InitialWait and nil res, err, lastErr. -/
def completeLoop (rc : RetryConfig) (env : CompleterEnv) : LoopOut :=
  loopGo rc env rc.maxAttempts.toNat 0 rc.initialWait none none none

/-- The error of the i-th attempt, if that attempt failed. -/
def errAt (env : CompleterEnv) (i : Nat) : Option GoError :=
  match env.attemptResult i with
  | .error e => some e
  | .ok _ => none

/-- An attempt outcome that is a failure the loop will retry. -/
def failsRetryably (o : Except GoError CompleteResponse) : Bool :=
  match o with
  | .error e => isRetryableError e
  | .ok _ => false

/-- An attempt outcome carrying the error a provider client produces for
an HTTP 5xx (ServiceUnavailable) or HTTP 429 (TooManyRequests) backend
response. -/
def fails5xxOr429 (o : Except GoError CompleteResponse) : Bool :=
  match o with
  | .error e => errorsIs e .serviceUnavailable || errorsIs e .tooManyRequests
  | .ok _ => false

/-- A successful provider outcome whose normalized response carries zero
messages. -/
def isOkEmpty (o : Except GoError CompleteResponse) : Bool :=
  match o with
  | .ok r => r.messages.isEmpty
  | .error _ => false

/-- A loop outcome that reports success carrying an empty message list. -/
def okEmpty : CompleteResult → Bool
  | .ok r => r.messages.isEmpty
  | _ => false

/-! ## Models and providers (types file) -/

/-- Provider constant OpenAI = "openai" (Provider is a Go string). -/
def OpenAI : String := "openai"

/-- Provider constant Ollama = "ollama". -/
def Ollama : String := "ollama"

/-- Capability flags of a model. -/
structure ModelCapabilities where
  supportsStreaming : Bool := false
  supportsFunctions : Bool := false
  supportsVision : Bool := false
  supportsJSON : Bool := false
  deriving DecidableEq

/-- Pricing of a model; the float64 per-token prices are rationals. -/
structure ModelPricing where
  inputPerToken : ℚ
  outputPerToken : ℚ
  currency : String
  deriving DecidableEq

/-- Immutable model descriptor; used as registry key and request
parameter. -/
structure Model where
  provider : String
  name : String
  displayName : String := ""
  maxToken : Nat := 0
  contextWindow : Nat := 0
  pdfSupported : Bool := false
  version : String := ""
  family : String := ""
  pricing : Option ModelPricing := none
  capabilities : ModelCapabilities := {}
  deriving DecidableEq

/-! ## CompleteWithFallback (completer file) -/

/-- Environment of one CompleteWithFallback call: the outcome
c.Complete yields per model, and the context's cancellation signal as
observed at the check before each fallback attempt. -/
structure FallbackEnv where
  completeModel : Model → Except GoError CompleteResponse
  cancelBefore : Nat → Bool
  cancelErr : GoError

deriving instance DecidableEq for Except

/-- Trace of one CompleteWithFallback call: the models on which
c.Complete was actually invoked, in order, and the returned value. -/
structure FallbackOut where
  attempted : List Model
  result : Except GoError CompleteResponse
  deriving DecidableEq

/-- The fallback loop: for each remaining fallback model, check
ctx.Err(), call c.Complete, return on the first success; when the slice
is exhausted return the last error wrapped with the all-models-failed
marker. -/
def fbLoop (env : FallbackEnv) : Nat → List Model → GoError → FallbackOut
  | _, [], err => ⟨[], .error (.wrap "all models failed" err)⟩
  | i, m :: rest, _ =>
    if env.cancelBefore i then ⟨[], .error env.cancelErr⟩
    else
      match env.completeModel m with
      | .ok r => ⟨[m], .ok r⟩
      | .error e =>
        let out := fbLoop env (i + 1) rest e
        ⟨m :: out.attempted, out.result⟩

/-- completer.CompleteWithFallback: try the primary model, then run the
fallback loop seeded with the primary's error. -/
def CompleteWithFallback (env : FallbackEnv) (primaryModel : Model)
    (fallbackModels : List Model) : FallbackOut :=
  match env.completeModel primaryModel with
  | .ok r => ⟨[primaryModel], .ok r⟩
  | .error e =>
    let out := fbLoop env 0 fallbackModels e
    ⟨primaryModel :: out.attempted, out.result⟩

/-- Modelled from the spec: try the primary, then each fallback model in
the caller-given order, short-circuiting on the first success; if every
model fails, return the final model's error wrapped with the
all-models-failed marker.  Comparison definition written from the
spec's words, to be proved equal to CompleteWithFallback. -/
def fallbackSpec (complete : Model → Except GoError CompleteResponse) :
    Model → List Model → FallbackOut
  | m, [] =>
    match complete m with
    | .ok r => ⟨[m], .ok r⟩
    | .error e => ⟨[m], .error (.wrap "all models failed" e)⟩
  | m, f :: rest =>
    match complete m with
    | .ok r => ⟨[m], .ok r⟩
    | .error _ =>
      let out := fallbackSpec complete f rest
      ⟨m :: out.attempted, out.result⟩

/-! ## Provider clients -/

/-- OpenAI chat wire message, one constructor per helper the client
calls (openai.UserMessage / AssistantMessage / SystemMessage). -/
inductive OAIWire where
  | user (content : String)
  | assistant (content : String)
  | system (content : String)
  deriving DecidableEq

/-- Roles the OpenAI client's switch accepts (function messages are
translated, not rejected). -/
def openaiKnownRole (r : String) : Bool :=
  r == RoleUser || r == RoleAssistant || r == RoleSystem || r == RoleFunction

/-- The OpenAI client's translation of one accepted message: function
messages fall back to a user message carrying the function result. -/
def openaiWireOf (m : Message) : OAIWire :=
  if m.role == RoleUser then .user m.content
  else if m.role == RoleAssistant then .assistant m.content
  else if m.role == RoleSystem then .system m.content
  else .user ("Function " ++ m.name ++ " returned: " ++ m.content)

/-- The OpenAI client's message loop: translate in order, stopping with
the unsupported-role error at the first unrecognized role. -/
def openaiConvertMessages : List Message → Except GoError (List OAIWire)
  | [] => .ok []
  | m :: rest =>
    if openaiKnownRole m.role then
      match openaiConvertMessages rest with
      | .ok ws => .ok (openaiWireOf m :: ws)
      | .error e => .error e
    else .error (.base (.other ("unsupported role: " ++ m.role)))

/-- Ollama api.Message wire format. -/
structure OllamaMsg where
  role : String
  content : String
  deriving DecidableEq

/-- Roles the Ollama client's switch accepts: RoleFunction falls through
to the default (unsupported role) case. -/
def ollamaKnownRole (r : String) : Bool :=
  r == RoleUser || r == RoleAssistant || r == RoleSystem

/-- The Ollama client's translation of one accepted message. -/
def ollamaWireOf (m : Message) : OllamaMsg :=
  if m.role == RoleUser then ⟨"user", m.content⟩
  else if m.role == RoleAssistant then ⟨"assistant", m.content⟩
  else ⟨"system", m.content⟩

/-- The Ollama client's message loop. -/
def ollamaConvertMessages : List Message → Except GoError (List OllamaMsg)
  | [] => .ok []
  | m :: rest =>
    if ollamaKnownRole m.role then
      match ollamaConvertMessages rest with
      | .ok ws => .ok (ollamaWireOf m :: ws)
      | .error e => .error e
    else .error (.base (.other ("unsupported role: " ++ m.role)))

/-- OpenAI SDK error as the client's handleError sees it: either an
openai.Error (with HTTP status code and provider error code) found by
errors.As, or any other error. -/
inductive OpenAIRaw where
  | api (statusCode : Nat) (code : String)
  | plain (msg : String)
  deriving DecidableEq

/-- Error code constant from the OpenAI API. -/
def ErrCodeContextLengthExceeded : String := "context_length_exceeded"

/-- Error code constant from the OpenAI API. -/
def ErrCodeLength : String := "length"

/-- Error code constant from the OpenAI API. -/
def ErrCodeInvalidAPIKey : String := "invalid_api_key"

/-- Error code constant from the OpenAI API. -/
def ErrCodeRateLimitExceeded : String := "rate_limit_exceeded"

/-- Error code constant from the OpenAI API. -/
def ErrCodeInsufficientQuota : String := "insufficient_quota"

/-- openai Client.handleError: build an LLMError with provider, model,
status code and error code, map the specific provider codes first, then
the HTTP status ranges; the default keeps the raw API error as the
cause.  Non-API errors are wrapped with provider and model only. -/
def openaiHandleError (modelName : String) : OpenAIRaw → GoError
  | .api statusCode code =>
    if code == ErrCodeContextLengthExceeded then
      .llmError OpenAI modelName statusCode code "" false (.base .contextLengthExceeded)
    else if code == ErrCodeLength then
      .llmError OpenAI modelName statusCode code "" false (.base .tokenLimitReached)
    else if code == ErrCodeInvalidAPIKey then
      .llmError OpenAI modelName statusCode code "" false (.base .invalidAPIKey)
    else if code == ErrCodeRateLimitExceeded then
      .llmError OpenAI modelName statusCode code "" true (.base .rateLimited)
    else if code == ErrCodeInsufficientQuota then
      .llmError OpenAI modelName statusCode code "" false (.base (.other "insufficient quota"))
    else if 500 ≤ statusCode ∧ statusCode < 600 then
      .llmError OpenAI modelName statusCode code "" true (.base .serviceUnavailable)
    else if statusCode == 429 then
      .llmError OpenAI modelName statusCode code "" true (.base .tooManyRequests)
    else
      .llmError OpenAI modelName statusCode code "" false (.base (.apiRaw statusCode code))
  | .plain msg => .llmError OpenAI modelName 0 "" "" false (.base (.other msg))

/-- Ollama api.StatusError as the client's handleError sees it, or any
other error. -/
inductive OllamaRaw where
  | statusError (statusCode : Nat) (status errorMessage : String)
  | plain (msg : String)
  deriving DecidableEq

/-- ollama Client.handleError: only the two HTTP status ranges are
mapped; the default keeps the raw status error as the cause. -/
def ollamaHandleError (modelName : String) : OllamaRaw → GoError
  | .statusError statusCode status errorMessage =>
    if 500 ≤ statusCode ∧ statusCode < 600 then
      .llmError Ollama modelName statusCode status errorMessage true (.base .serviceUnavailable)
    else if statusCode == 429 then
      .llmError Ollama modelName statusCode status errorMessage true (.base .tooManyRequests)
    else
      .llmError Ollama modelName statusCode status errorMessage false (.base (.apiRaw statusCode status))
  | .plain msg => .llmError Ollama modelName 0 "" "" false (.base (.other msg))

/-- openai Client.Complete around an abstract backend: translate the
messages (an unrecognized role is returned before any network call),
issue the call, surface NoMessages on an empty choice list, otherwise
normalize (the choice-to-message translation is the backend's output
here; latency and usage plumbing is not modelled). -/
def openaiClientComplete (modelName : String) (params : CompleteParams)
    (backend : List OAIWire → Except OpenAIRaw (List Message)) :
    Except GoError CompleteResponse :=
  match openaiConvertMessages params.messages with
  | .error e => .error e
  | .ok wire =>
    match backend wire with
    | .error raw => .error (openaiHandleError modelName raw)
    | .ok choices =>
      if choices.length == 0 then .error (.base .noMessages)
      else .ok { messages := choices, metadata := { modelName := modelName } }

/-- ollama Client.Complete around an abstract backend: translate the
messages (function and unknown roles are rejected before any network
call), issue the call, normalize.  This client has no empty-response
check of its own. -/
def ollamaClientComplete (modelName : String) (params : CompleteParams)
    (backend : List OllamaMsg → Except OllamaRaw (List Message)) :
    Except GoError CompleteResponse :=
  match ollamaConvertMessages params.messages with
  | .error e => .error e
  | .ok wire =>
    match backend wire with
    | .error raw => .error (ollamaHandleError modelName raw)
    | .ok msgs => .ok { messages := msgs, metadata := { modelName := modelName } }

/-- An error produced by the clients' unsupported-role branch. -/
def isUnsupportedRoleError (o : Except GoError CompleteResponse) : Bool :=
  match o with
  | .error (.base (.other s)) => s.startsWith "unsupported role: "
  | _ => false

/-! ## Configuration and the model registry -/

/-- OpenAI configuration section. -/
structure OpenAIConfig where
  apiKey : String := ""
  deriving DecidableEq

/-- Ollama configuration section. -/
structure OllamaConfig where
  baseURL : String := ""
  deriving DecidableEq

/-- Ollama.IsConfigured: a non-empty base URL. -/
def OllamaConfig.IsConfigured (o : OllamaConfig) : Bool :=
  o.baseURL != ""

/-- Langfuse configuration section. -/
structure LangfuseConfig where
  privateKey : String := ""
  publicKey : String := ""
  deriving DecidableEq

/-- Langfuse.IsConfigured: both keys non-empty. -/
def LangfuseConfig.IsConfigured (l : LangfuseConfig) : Bool :=
  l.privateKey != "" && l.publicKey != ""

/-- The llm configuration section. -/
structure LLMConfig where
  openai : OpenAIConfig := {}
  ollama : OllamaConfig := {}
  langfuse : LangfuseConfig := {}
  deriving DecidableEq

/-- The application configuration (sections the llm layer does not read
are omitted). -/
structure Config where
  llm : LLMConfig := {}
  deriving DecidableEq

/-- RegisterLLM: add each model to the registration map.  The map is
keyed by the whole Model value; its key set is modelled as a
duplicate-free list (iteration order never matters to the claims, only
membership). -/
def RegisterLLM (supportedModels : List Model) (models : List Model) : List Model :=
  models.foldl (fun acc m => if acc.contains m then acc else acc.concat m)
    supportedModels

/-- The set of models usable under the current configuration. -/
structure Registry where
  models : List Model
  deriving DecidableEq

/-- NewRegistry: keep every registered OpenAI model; keep an Ollama
model only when Ollama is configured; models of any other provider are
skipped by the switch. -/
def NewRegistry (cfg : Config) (supportedModels : List Model) : Registry :=
  ⟨supportedModels.filter (fun m =>
    if m.provider == OpenAI then true
    else if m.provider == Ollama then cfg.llm.ollama.IsConfigured
    else false)⟩

/-- ModelGPT4o as registered by the openai package. -/
def ModelGPT4o : Model :=
  { provider := OpenAI
    name := "gpt-4o"
    displayName := "OpenAI gpt-4o"
    maxToken := 16384
    contextWindow := 128000
    pdfSupported := true
    version := "2023-05-15"
    family := "GPT-4"
    pricing := some ⟨mkRat 1 100000, mkRat 3 100000, "USD"⟩
    capabilities := ⟨true, true, true, true⟩ }

/-- ModelTinySwallow as registered by the ollama package. -/
def ModelTinySwallow : Model :=
  { provider := Ollama
    name := "yottahmd/tiny-swallow-1.5b-instruct"
    displayName := "Sakana AI Tiny Swallow 1.5B"
    maxToken := 32768
    contextWindow := 32768
    pdfSupported := true
    version := "2024-03-05"
    family := "SakanaAI"
    pricing := some ⟨0, 0, "USD"⟩
    capabilities := ⟨true, false, false, false⟩ }

/-! ## Telemetry fan-out (completer sendTraceEvents + langfuse Ingest) -/

/-- Behavior of the telemetry ingestion endpoint during one completion:
an HTTP response with a status code and some number of per-event errors,
a transport failure, or a panic raised inside the goroutine body. -/
inductive SinkBehavior where
  | respond (statusCode : Nat) (eventErrors : Nat)
  | netFail (msg : String)
  | panicDuring (msg : String)
  deriving DecidableEq

/-- langfuse Client.Ingest transport-level acceptance: any status other
than 207 (multi-status) and 200 is an error. -/
def ingestAccepts (statusCode : Nat) : Bool :=
  statusCode == 207 || statusCode == 200

/-- Log lines the detached telemetry goroutine produces for one sink
behavior: a recovered panic is logged; an Ingest error is logged twice
(once by the errgroup body, once after Wait); per-event errors inside an
accepted response are logged; full success logs nothing. -/
def telemetryLogs : SinkBehavior → List String
  | .panicDuring _ => ["panic while sending trace events"]
  | .netFail _ => ["failed to send trace events to Langfuse", "error sending telemetry"]
  | .respond statusCode eventErrors =>
    if ingestAccepts statusCode then
      if eventErrors > 0 then ["failed to ingest some events"] else []
    else ["failed to send trace events to Langfuse", "error sending telemetry"]

/-- Value and log output of one completer.Complete call including the
telemetry fan-out.  The goroutine is detached: the sink's behavior feeds
only the log component; emission happens only after a validated success
and only when Langfuse is configured. -/
structure CompleteOut where
  result : CompleteResult
  logs : List String
  deriving DecidableEq

/-- completer.Complete followed by the asynchronous sendTraceEvents. -/
def completeWithTelemetry (rc : RetryConfig) (env : CompleterEnv)
    (langfuseConfigured : Bool) (sink : SinkBehavior) : CompleteOut :=
  let t := completeLoop rc env
  match t.result with
  | .ok r => ⟨.ok r, if langfuseConfigured then telemetryLogs sink else []⟩
  | other => ⟨other, []⟩

/-! ## Concrete fixtures for the witnesses -/

/-- A one-message success response. -/
def respOne : CompleteResponse :=
  { messages := [{ role := RoleAssistant, content := "looks good" }] }

/-- Environment: every attempt fails with the ServiceUnavailable error a
provider maps an HTTP 503 to; no cancellation. -/
def envSU : CompleterEnv :=
  { attemptResult := fun _ =>
      .error (.llmError "openai" "gpt-4o" 503 "" "" true (.base .serviceUnavailable))
    cancelBefore := fun _ => false
    cancelInWait := fun _ => false
    cancelErr := .base .canceled }

/-- Environment: every attempt fails with the bare RateLimited sentinel;
no cancellation. -/
def envRateLimited : CompleterEnv :=
  { attemptResult := fun _ => .error (.base .rateLimited)
    cancelBefore := fun _ => false
    cancelInWait := fun _ => false
    cancelErr := .base .canceled }

/-- Environment: attempts fail retryably, and the caller's context fires
during the backoff wait before the second attempt. -/
def envCancelInWait : CompleterEnv :=
  { attemptResult := fun _ => .error (.base .serviceUnavailable)
    cancelBefore := fun _ => false
    cancelInWait := fun i => i == 1
    cancelErr := .base .canceled }

/-- Environment: the backend succeeds immediately but the normalized
response carries zero messages. -/
def envOkEmpty : CompleterEnv :=
  { attemptResult := fun _ => .ok { messages := [] }
    cancelBefore := fun _ => false
    cancelInWait := fun _ => false
    cancelErr := .base .canceled }

/-- Environment: the first attempt succeeds with one message. -/
def envOk : CompleterEnv :=
  { attemptResult := fun _ => .ok respOne
    cancelBefore := fun _ => false
    cancelInWait := fun _ => false
    cancelErr := .base .canceled }

/-- Two bare models for the fallback witnesses. -/
def modelA : Model := { provider := OpenAI, name := "model-a" }

/-- Second fallback witness model. -/
def modelB : Model := { provider := Ollama, name := "model-b" }

/-- Fallback environment: every model fails with its own LLMError; no
cancellation. -/
def fbEnvAllFail : FallbackEnv :=
  { completeModel := fun m =>
      .error (.wrap "all completion attempts failed"
        (.llmError m.provider m.name 503 "" "" true (.base .serviceUnavailable)))
    cancelBefore := fun _ => false
    cancelErr := .base .canceled }

/-- A function-role message (one of the four known roles). -/
def funcMsg : Message := { role := RoleFunction, content := "42", name := "getAnswer" }

/-- A message with an unrecognized role. -/
def badRoleMsg : Message := { role := "tool", content := "x" }

/-- The value of the lastErr (and err) variable at the top of iteration
k when every earlier attempt failed retryably. -/
def lastE (env : CompleterEnv) (k : Nat) : Option GoError :=
  if k = 0 then none else errAt env (k - 1)

/-- The backoff sleeps performed strictly before iteration k reaches its
provider call: iterations 1 .. k-1 each sleep one wait value. -/
def sleeps (rc : RetryConfig) (k : Nat) : List Nat :=
  (List.range (k - 1)).map (backoffW rc)

/-- The provider-specific OpenAI error codes handled by the switch in
handleError, which precedes the HTTP status range checks. -/
def openaiSpecialCode (code : String) : Bool :=
  code == ErrCodeContextLengthExceeded || code == ErrCodeLength ||
    code == ErrCodeInvalidAPIKey || code == ErrCodeRateLimitExceeded ||
    code == ErrCodeInsufficientQuota

/-- Modelled from the spec: the invariant status-code mapping rules —
HTTP 5xx maps to ServiceUnavailable and HTTP 429 to TooManyRequests,
both retryable.  Comparison definition for claim C3. -/
def statusKindSpec (statusCode : Nat) : Option BaseErr :=
  if 500 ≤ statusCode ∧ statusCode < 600 then some .serviceUnavailable
  else if statusCode == 429 then some .tooManyRequests
  else none

/-- Configuration with Ollama unconfigured (and Langfuse keys unset). -/
def cfgNoOllama : Config := {}

/-- Configuration with Ollama configured. -/
def cfgWithOllama : Config :=
  { llm := { ollama := { baseURL := "http://localhost:11434" } } }

/-! ## Backoff arithmetic -/

/-- A factor of at least one has numerator at least denominator. -/
theorem factor_den_le_num {q : ℚ} (h : 1 ≤ q) : q.den ≤ q.num.toNat := by
  have h1 : (q.den : ℤ) ≤ q.num := by
    rw [Rat.le_def] at h
    simpa using h
  simpa using Int.toNat_le_toNat h1

/-- The updated wait never exceeds MaxWait. -/
theorem nextWait_le_maxWait (rc : RetryConfig) (w : Nat) :
    nextWait rc w ≤ rc.maxWait :=
  min_le_right _ _

/-- With factor at least one, the backoff update does not decrease a
wait that is within the cap. -/
theorem le_nextWait {rc : RetryConfig} (hfac : 1 ≤ rc.factor) {w : Nat}
    (hw : w ≤ rc.maxWait) : w ≤ nextWait rc w := by
  refine le_min ?_ hw
  have hden : 0 < rc.factor.den := rc.factor.pos
  rw [Nat.le_div_iff_mul_le hden]
  exact Nat.mul_le_mul_left w (factor_den_le_num hfac)

/-- Every wait in the backoff sequence is within the cap. -/
theorem backoffW_le_maxWait {rc : RetryConfig}
    (hinit : rc.initialWait ≤ rc.maxWait) : ∀ k, backoffW rc k ≤ rc.maxWait
  | 0 => hinit
  | k + 1 => nextWait_le_maxWait rc (backoffW rc k)

/-- The backoff sequence is non-decreasing. -/
theorem backoffW_mono {rc : RetryConfig} (hfac : 1 ≤ rc.factor)
    (hinit : rc.initialWait ≤ rc.maxWait) (k : Nat) :
    backoffW rc k ≤ backoffW rc (k + 1) :=
  le_nextWait hfac (backoffW_le_maxWait hinit k)

/-! ## Unfolding the retry loop across a clean run of retryable failures -/

/-- Running the loop from its initial state equals running it from
iteration k, provided every iteration before k saw no cancellation and a
retryable failure; the k earlier provider calls and the k-1 earlier
sleeps are accounted to the trace. -/
theorem loopGo_progress (rc : RetryConfig) (env : CompleterEnv) :
    ∀ k : Nat,
      (∀ i, i < k →
        env.cancelBefore i = false ∧ (i ≠ 0 → env.cancelInWait i = false) ∧
          failsRetryably (env.attemptResult i) = true) →
      ∀ remaining,
        loopGo rc env (k + remaining) 0 rc.initialWait none none none =
          { waits := sleeps rc k ++ (loopGo rc env remaining k
              (backoffW rc (k - 1)) (lastE env k) none (lastE env k)).waits
            calls := k + (loopGo rc env remaining k
              (backoffW rc (k - 1)) (lastE env k) none (lastE env k)).calls
            result := (loopGo rc env remaining k
              (backoffW rc (k - 1)) (lastE env k) none (lastE env k)).result } := by
  intro k
  induction k with
  | zero =>
    intro _ remaining
    simp [sleeps, lastE, backoffW]
  | succ s ih =>
    intro hclean remaining
    obtain ⟨hcb, hciw, hfr⟩ := hclean s (Nat.lt_succ_self s)
    obtain ⟨e, he, hre⟩ :
        ∃ e, env.attemptResult s = .error e ∧ isRetryableError e = true := by
      cases h : env.attemptResult s with
      | ok r => rw [h] at hfr; simp [failsRetryably] at hfr
      | error e =>
        refine ⟨e, rfl, ?_⟩
        rw [h] at hfr
        simpa [failsRetryably] using hfr
    have ihs := ih (fun i hi => hclean i (Nat.lt_succ_of_lt hi)) (remaining + 1)
    have harith : s + 1 + remaining = s + (remaining + 1) := by omega
    rw [harith, ihs]
    have hlastS : lastE env (s + 1) = some e := by
      simp [lastE, errAt, he]
    cases s with
    | zero =>
      have hlast0 : lastE env 0 = none := by simp [lastE]
      simp only [hlast0, hlastS, loopGo, hcb, he, hre]
      simp [sleeps, backoffW]
      omega
    | succ t =>
      have hciw' : env.cancelInWait (t + 1) = false := hciw (Nat.succ_ne_zero t)
      have hlastT : lastE env (t + 1) = errAt env t := by simp [lastE]
      simp only [hlastS, loopGo, hcb, he, hre, hciw']
      have hbw : nextWait rc (backoffW rc (t + 1 - 1)) = backoffW rc (t + 2 - 1) := by
        simp [backoffW]
      rw [hbw]
      simp [sleeps, List.range_succ]
      omega

/-- A 5xx or 429 provider failure is a failure the loop retries. -/
theorem failsRetryably_of_5xxOr429 {o : Except GoError CompleteResponse}
    (h : fails5xxOr429 o = true) : failsRetryably o = true := by
  cases o with
  | ok r => simp [fails5xxOr429] at h
  | error e =>
    simp [fails5xxOr429] at h
    simp [failsRetryably, isRetryableError]
    tauto

/-- The backoff wait list drawn from the backoff sequence is
non-decreasing. -/
theorem chain_backoffW {rc : RetryConfig} (hfac : 1 ≤ rc.factor)
    (hinit : rc.initialWait ≤ rc.maxWait) (m : Nat) :
    List.Chain' (· ≤ ·) ((List.range m).map (backoffW rc)) := by
  rw [List.chain'_map]
  cases m with
  | zero => simp
  | succ u =>
    rw [List.chain'_range_succ]
    intro i _
    exact backoffW_mono hfac hinit i

/-- C1.  For every provider error sequence of HTTP 5xx or 429 responses
(each mapped to ServiceUnavailable or TooManyRequests) and no
cancellation, Complete issues exactly MaxAttempts provider attempts;
between attempts it sleeps the wait sequence that starts at InitialWait
and grows by the Factor update capped at MaxWait, so the waits are
non-decreasing and never exceed MaxWait; and it returns the last
attempt's error wrapped with the all-completion-attempts-failed
marker. -/
theorem complete_retry_exhaustion (rc : RetryConfig) (env : CompleterEnv)
    (hmax : 1 ≤ rc.maxAttempts) (hfac : 1 ≤ rc.factor)
    (hinit : rc.initialWait ≤ rc.maxWait)
    (hfail : ∀ i, i < rc.maxAttempts.toNat →
      fails5xxOr429 (env.attemptResult i) = true)
    (hnc : ∀ i, env.cancelBefore i = false ∧ env.cancelInWait i = false) :
    (completeLoop rc env).calls = rc.maxAttempts.toNat
    ∧ (completeLoop rc env).waits =
        (List.range (rc.maxAttempts.toNat - 1)).map (backoffW rc)
    ∧ List.Chain' (· ≤ ·) (completeLoop rc env).waits
    ∧ (completeLoop rc env).waits.all (fun w => decide (w ≤ rc.maxWait)) = true
    ∧ (completeLoop rc env).result =
        .err (wrapLast "all completion attempts failed"
          (errAt env (rc.maxAttempts.toNat - 1))) := by
  have hn : 1 ≤ rc.maxAttempts.toNat := by omega
  have hcl : ∀ i, i < rc.maxAttempts.toNat →
      env.cancelBefore i = false ∧ (i ≠ 0 → env.cancelInWait i = false) ∧
        failsRetryably (env.attemptResult i) = true :=
    fun i hi => ⟨(hnc i).1, fun _ => (hnc i).2,
      failsRetryably_of_5xxOr429 (hfail i hi)⟩
  have hp := loopGo_progress rc env rc.maxAttempts.toNat hcl 0
  rw [Nat.add_zero] at hp
  have hT : loopGo rc env 0 rc.maxAttempts.toNat
      (backoffW rc (rc.maxAttempts.toNat - 1)) (lastE env rc.maxAttempts.toNat)
      none (lastE env rc.maxAttempts.toNat) =
      ⟨[], 0, mkFinal none (lastE env rc.maxAttempts.toNat)
        (lastE env rc.maxAttempts.toNat)⟩ := by
    simp [loopGo]
  have hlast : ∃ e, lastE env rc.maxAttempts.toNat = some e := by
    have hf := hfail (rc.maxAttempts.toNat - 1) (by omega)
    cases h : env.attemptResult (rc.maxAttempts.toNat - 1) with
    | ok r => rw [h] at hf; simp [fails5xxOr429] at hf
    | error e =>
      refine ⟨e, ?_⟩
      simp [lastE, errAt, h, Nat.ne_of_gt hn]
  obtain ⟨eL, heL⟩ := hlast
  have hcomp : completeLoop rc env =
      { waits := sleeps rc rc.maxAttempts.toNat
        calls := rc.maxAttempts.toNat
        result := mkFinal none (lastE env rc.maxAttempts.toNat)
          (lastE env rc.maxAttempts.toNat) } := by
    rw [completeLoop, hp, hT]
    simp
  have hlastErrAt : lastE env rc.maxAttempts.toNat =
      errAt env (rc.maxAttempts.toNat - 1) := by
    simp [lastE]
    omega
  refine ⟨?_, ?_, ?_, ?_, ?_⟩
  · rw [hcomp]
  · rw [hcomp]; simp [sleeps]
  · rw [hcomp]
    exact chain_backoffW hfac hinit _
  · rw [hcomp]
    simp only [List.all_eq_true]
    intro w hw
    simp only [sleeps, List.mem_map, List.mem_range] at hw
    obtain ⟨i, _, rfl⟩ := hw
    simpa using backoffW_le_maxWait hinit i
  · rw [hcomp, ← hlastErrAt, heL]
    simp [mkFinal]

/-- Witness for C1 at the default retry configuration and an
all-attempts-503 environment. -/
theorem complete_retry_exhaustion_witness :
    (completeLoop DefaultRetryConfig envSU).calls = DefaultRetryConfig.maxAttempts.toNat
    ∧ (completeLoop DefaultRetryConfig envSU).waits =
        (List.range (DefaultRetryConfig.maxAttempts.toNat - 1)).map (backoffW DefaultRetryConfig)
    ∧ List.Chain' (· ≤ ·) (completeLoop DefaultRetryConfig envSU).waits
    ∧ (completeLoop DefaultRetryConfig envSU).waits.all
        (fun w => decide (w ≤ DefaultRetryConfig.maxWait)) = true
    ∧ (completeLoop DefaultRetryConfig envSU).result =
        .err (wrapLast "all completion attempts failed"
          (errAt envSU (DefaultRetryConfig.maxAttempts.toNat - 1))) :=
  complete_retry_exhaustion DefaultRetryConfig envSU (by decide) (by decide)
    (by decide) (fun i _ => rfl) (fun i => ⟨rfl, rfl⟩)

/-- Any iteration that is allowed to run (no cancellation observed at
its two check points) issues at least one provider call. -/
theorem loopGo_calls_pos (rc : RetryConfig) (env : CompleterEnv)
    (r attempt wait : Nat) (lastErr : Option GoError)
    (res : Option CompleteResponse) (err' : Option GoError)
    (hcb : env.cancelBefore attempt = false)
    (hcw : env.cancelInWait attempt = false) :
    1 ≤ (loopGo rc env (r + 1) attempt wait lastErr res err').calls := by
  by_cases hat : attempt = 0
  · subst hat
    simp only [loopGo, hcb]
    cases h : env.attemptResult 0 with
    | ok rr => simp [h]
    | error e => by_cases hr : isRetryableError e <;> simp [h, hr]
  · have hat' : (attempt == 0) = false := by simp [hat]
    simp only [loopGo, hcb, hcw, hat']
    cases h : env.attemptResult attempt with
    | ok rr => simp [h]
    | error e => by_cases hr : isRetryableError e <;> simp [h, hr]

/-- C2 counterexample: RateLimited is one of the transient service
kinds the claim lists as retried (and IsRetryable reports it
retryable), yet under the default three-attempt budget with no
cancellation the retry loop performs exactly one attempt on it. -/
theorem complete_retry_kinds_counterexample :
    IsRetryable (.base .rateLimited) = true
    ∧ isRetryableError (.base .rateLimited) = false
    ∧ DefaultRetryConfig.maxAttempts = 3
    ∧ (completeLoop DefaultRetryConfig envRateLimited).calls = 1 := by
  refine ⟨rfl, rfl, rfl, ?_⟩
  rfl

/-- C2 (amended).  The retry loop retries exactly the errors matched by
isRetryableError — errors.Is against ServiceUnavailable,
TooManyRequests, or context.DeadlineExceeded.  Every other error (the
taxonomy's Timeout, RateLimited and ModelOverloaded included) ends the
call after exactly one attempt, returned wrapped with the
all-completion-attempts-failed marker. -/
theorem complete_retries_iff_loop_retryable (rc : RetryConfig)
    (env : CompleterEnv) (e : GoError)
    (h0 : env.attemptResult 0 = .error e)
    (hc0 : env.cancelBefore 0 = false)
    (hc1 : env.cancelBefore 1 = false)
    (hw1 : env.cancelInWait 1 = false)
    (hmax : 2 ≤ rc.maxAttempts) :
    (1 < (completeLoop rc env).calls ↔ isRetryableError e = true)
    ∧ (isRetryableError e = false →
        (completeLoop rc env).calls = 1
        ∧ (completeLoop rc env).result =
            .err (.wrap "all completion attempts failed" e))
    ∧ isRetryableError e =
        (errorsIs e .serviceUnavailable || errorsIs e .tooManyRequests ||
          errorsIs e .deadlineExceeded) := by
  obtain ⟨m, hm⟩ : ∃ m, rc.maxAttempts.toNat = m + 2 :=
    ⟨rc.maxAttempts.toNat - 2, by omega⟩
  have hcl : completeLoop rc env =
      loopGo rc env (m + 2) 0 rc.initialWait none none none := by
    rw [completeLoop, hm]
  by_cases hr : isRetryableError e = true
  · have h2 := loopGo_calls_pos rc env m 1 rc.initialWait (some e) none
      (some e) hc1 hw1
    have hstep : (completeLoop rc env).calls =
        (loopGo rc env (m + 1) 1 rc.initialWait (some e) none (some e)).calls
          + 1 := by
      rw [hcl]
      simp [loopGo, hc0, h0, hr]
    refine ⟨?_, ?_, rfl⟩
    · rw [hstep]
      simp only [hr, iff_true]
      omega
    · intro hfalse
      rw [hr] at hfalse
      cases hfalse
  · have hrf : isRetryableError e = false := by simpa using hr
    have hstep : completeLoop rc env =
        ⟨[], 1, mkFinal none (some e) (some e)⟩ := by
      rw [hcl]
      simp [loopGo, hc0, h0, hrf]
    rw [hstep]
    refine ⟨by simp [hrf], fun _ => ⟨rfl, ?_⟩, rfl⟩
    simp [mkFinal, wrapLast]

/-- Witness for C2 (amended) at the default configuration, a
ServiceUnavailable first failure, and an all-503 environment. -/
theorem complete_retries_iff_loop_retryable_witness :
    (1 < (completeLoop DefaultRetryConfig envSU).calls ↔
      isRetryableError
        (.llmError "openai" "gpt-4o" 503 "" "" true (.base .serviceUnavailable)) = true)
    ∧ (isRetryableError
        (.llmError "openai" "gpt-4o" 503 "" "" true (.base .serviceUnavailable)) = false →
        (completeLoop DefaultRetryConfig envSU).calls = 1
        ∧ (completeLoop DefaultRetryConfig envSU).result =
            .err (.wrap "all completion attempts failed"
              (.llmError "openai" "gpt-4o" 503 "" "" true (.base .serviceUnavailable))))
    ∧ isRetryableError
        (.llmError "openai" "gpt-4o" 503 "" "" true (.base .serviceUnavailable)) =
        (errorsIs (.llmError "openai" "gpt-4o" 503 "" "" true (.base .serviceUnavailable))
            .serviceUnavailable ||
          errorsIs (.llmError "openai" "gpt-4o" 503 "" "" true (.base .serviceUnavailable))
            .tooManyRequests ||
          errorsIs (.llmError "openai" "gpt-4o" 503 "" "" true (.base .serviceUnavailable))
            .deadlineExceeded) :=
  complete_retries_iff_loop_retryable DefaultRetryConfig envSU
    (.llmError "openai" "gpt-4o" 503 "" "" true (.base .serviceUnavailable))
    rfl rfl rfl rfl (by decide)

/-- C4.  If the cancellation signal has already fired when an attempt
would start, or fires during the backoff wait preceding an attempt,
the loop returns the context's error immediately and issues no further
provider calls (exactly the k earlier attempts happened). -/
theorem complete_cancellation_aborts (rc : RetryConfig) (env : CompleterEnv)
    (k : Nat)
    (hk : k < rc.maxAttempts.toNat)
    (hpre : ∀ i, i < k →
      env.cancelBefore i = false ∧ (i ≠ 0 → env.cancelInWait i = false) ∧
        failsRetryably (env.attemptResult i) = true)
    (hcancel : env.cancelBefore k = true ∨
      (k ≠ 0 ∧ env.cancelBefore k = false ∧ env.cancelInWait k = true)) :
    (completeLoop rc env).result = .err env.cancelErr
    ∧ (completeLoop rc env).calls = k := by
  obtain ⟨m, hm⟩ : ∃ m, rc.maxAttempts.toNat = k + (m + 1) :=
    ⟨rc.maxAttempts.toNat - k - 1, by omega⟩
  have hp := loopGo_progress rc env k hpre (m + 1)
  have hcl : completeLoop rc env =
      { waits := sleeps rc k ++ (loopGo rc env (m + 1) k
          (backoffW rc (k - 1)) (lastE env k) none (lastE env k)).waits
        calls := k + (loopGo rc env (m + 1) k
          (backoffW rc (k - 1)) (lastE env k) none (lastE env k)).calls
        result := (loopGo rc env (m + 1) k
          (backoffW rc (k - 1)) (lastE env k) none (lastE env k)).result } := by
    rw [completeLoop, hm]
    exact hp
  rcases hcancel with hcb | ⟨hk0, hcb, hcw⟩
  · have hT : loopGo rc env (m + 1) k (backoffW rc (k - 1)) (lastE env k)
        none (lastE env k) = ⟨[], 0, .err env.cancelErr⟩ := by
      simp [loopGo, hcb]
    rw [hcl, hT]
    exact ⟨rfl, rfl⟩
  · have hk0' : (k == 0) = false := by simp [hk0]
    have hT : loopGo rc env (m + 1) k (backoffW rc (k - 1)) (lastE env k)
        none (lastE env k) = ⟨[], 0, .err env.cancelErr⟩ := by
      simp [loopGo, hcb, hk0', hcw]
    rw [hcl, hT]
    exact ⟨rfl, rfl⟩

/-- Witness for C4: cancellation fires during the backoff wait before
the second attempt. -/
theorem complete_cancellation_aborts_witness :
    (completeLoop DefaultRetryConfig envCancelInWait).result =
      .err envCancelInWait.cancelErr
    ∧ (completeLoop DefaultRetryConfig envCancelInWait).calls = 1 :=
  complete_cancellation_aborts DefaultRetryConfig envCancelInWait 1
    (by decide) (by decide) (by decide)

/-- The post-loop validation never produces a success with an empty
message list. -/
theorem okEmpty_mkFinal (res : Option CompleteResponse)
    (err lastErr : Option GoError) : okEmpty (mkFinal res err lastErr) = false := by
  cases err with
  | some e => simp [mkFinal, okEmpty]
  | none =>
    cases res with
    | none => simp [mkFinal, okEmpty]
    | some r =>
      cases hm : r.messages with
      | nil => simp [mkFinal, okEmpty, hm]
      | cons a l => simp [mkFinal, okEmpty, hm]

/-- No state of the retry loop returns a success carrying an empty
message list. -/
theorem loopGo_okEmpty (rc : RetryConfig) (env : CompleterEnv) :
    ∀ remaining attempt wait lastErr res err,
      okEmpty (loopGo rc env remaining attempt wait lastErr res err).result = false := by
  intro remaining
  induction remaining with
  | zero =>
    intro attempt wait lastErr res err
    simpa [loopGo] using okEmpty_mkFinal res err lastErr
  | succ r ih =>
    intro attempt wait lastErr res err
    by_cases hcb : env.cancelBefore attempt = true
    · simp [loopGo, hcb, okEmpty]
    · have hcb' : env.cancelBefore attempt = false := by simpa using hcb
      by_cases hat : attempt = 0
      · subst hat
        cases h : env.attemptResult 0 with
        | ok rr => simp [loopGo, hcb', h, okEmpty_mkFinal]
        | error e =>
          by_cases hr : isRetryableError e
          · simp [loopGo, hcb', h, hr, ih]
          · simp [loopGo, hcb', h, hr, okEmpty_mkFinal]
      · have hat' : (attempt == 0) = false := by simp [hat]
        by_cases hcw : env.cancelInWait attempt = true
        · simp [loopGo, hcb', hat', hcw, okEmpty]
        · have hcw' : env.cancelInWait attempt = false := by simpa using hcw
          cases h : env.attemptResult attempt with
          | ok rr => simp [loopGo, hcb', hat', hcw', h, okEmpty_mkFinal]
          | error e =>
            by_cases hr : isRetryableError e
            · simp [loopGo, hcb', hat', hcw', h, hr, ih]
            · simp [loopGo, hcb', hat', hcw', h, hr, okEmpty_mkFinal]

/-- C5.  Complete never returns a nil error together with a response
whose message list is empty; in particular, a first attempt whose
backend call succeeds with zero normalized messages (no cancellation,
at least one attempt allowed) yields the NoMessages error instead of a
success. -/
theorem complete_no_empty_success (rc : RetryConfig) (env : CompleterEnv) :
    okEmpty (completeLoop rc env).result = false
    ∧ (1 ≤ rc.maxAttempts → env.cancelBefore 0 = false →
        isOkEmpty (env.attemptResult 0) = true →
        (completeLoop rc env).result = .err (.base .noMessages)) := by
  constructor
  · exact loopGo_okEmpty rc env _ _ _ _ _ _
  · intro hmax hcb hempty
    obtain ⟨r0, h0, hr0⟩ :
        ∃ r0, env.attemptResult 0 = .ok r0 ∧ r0.messages.isEmpty = true := by
      cases h : env.attemptResult 0 with
      | ok rr =>
        rw [h] at hempty
        exact ⟨rr, rfl, by simpa [isOkEmpty] using hempty⟩
      | error e => rw [h] at hempty; simp [isOkEmpty] at hempty
    obtain ⟨m, hm⟩ : ∃ m, rc.maxAttempts.toNat = m + 1 :=
      ⟨rc.maxAttempts.toNat - 1, by omega⟩
    have hmsgs : r0.messages = [] := by simpa using hr0
    rw [completeLoop, hm]
    simp [loopGo, hcb, h0, mkFinal, hmsgs]

/-- Witness for C5: a backend success carrying zero messages. -/
theorem complete_no_empty_success_witness :
    okEmpty (completeLoop DefaultRetryConfig envOkEmpty).result = false
    ∧ (completeLoop DefaultRetryConfig envOkEmpty).result =
        .err (.base .noMessages) :=
  ⟨(complete_no_empty_success DefaultRetryConfig envOkEmpty).1,
    (complete_no_empty_success DefaultRetryConfig envOkEmpty).2
      (by decide) rfl rfl⟩

/-- A state whose err variable is set never reaches the nil
dereference: the post-loop code returns the wrapped error. -/
theorem loopGo_err_some_ne_nilPanic (rc : RetryConfig) (env : CompleterEnv) :
    ∀ remaining attempt wait lastErr res e,
      (loopGo rc env remaining attempt wait lastErr res (some e)).result ≠
        .nilPanic := by
  intro remaining
  induction remaining with
  | zero =>
    intro attempt wait lastErr res e
    simp [loopGo, mkFinal]
  | succ r ih =>
    intro attempt wait lastErr res e
    by_cases hcb : env.cancelBefore attempt = true
    · simp [loopGo, hcb]
    · have hcb' : env.cancelBefore attempt = false := by simpa using hcb
      by_cases hat : attempt = 0
      · subst hat
        cases h : env.attemptResult 0 with
        | ok rr =>
          cases hm : rr.messages <;> simp [loopGo, hcb', h, mkFinal, hm]
        | error e' =>
          by_cases hr : isRetryableError e'
          · simp only [loopGo, hcb', h, hr]
            simpa using ih 1 wait (some e') none e'
          · simp [loopGo, hcb', h, hr, mkFinal]
      · have hat' : (attempt == 0) = false := by simp [hat]
        by_cases hcw : env.cancelInWait attempt = true
        · simp [loopGo, hcb', hat', hcw]
        · have hcw' : env.cancelInWait attempt = false := by simpa using hcw
          cases h : env.attemptResult attempt with
          | ok rr =>
            cases hm : rr.messages <;>
              simp [loopGo, hcb', hat', hcw', h, mkFinal, hm]
          | error e' =>
            by_cases hr : isRetryableError e'
            · simp only [loopGo, hcb', hat', hcw', h, hr]
              simpa using ih (attempt + 1) (nextWait rc wait) (some e') none e'
            · simp [loopGo, hcb', hat', hcw', h, hr, mkFinal]

/-- C10.  Complete hits the nil-response dereference exactly when
MaxAttempts ≤ 0 (the loop body never executes, err stays nil, and
validating res.Messages dereferences a nil pointer); under the implicit
precondition MaxAttempts ≥ 1 that branch is unreachable, so Complete
always returns a response or an error. -/
theorem complete_nilPanic_iff (rc : RetryConfig) (env : CompleterEnv) :
    ((completeLoop rc env).result = .nilPanic ↔ rc.maxAttempts ≤ 0) := by
  constructor
  · intro h
    by_contra hpos
    obtain ⟨m, hm⟩ : ∃ m, rc.maxAttempts.toNat = m + 1 :=
      ⟨rc.maxAttempts.toNat - 1, by omega⟩
    rw [completeLoop, hm] at h
    revert h
    by_cases hcb : env.cancelBefore 0 = true
    · simp [loopGo, hcb]
    · have hcb' : env.cancelBefore 0 = false := by simpa using hcb
      cases h0 : env.attemptResult 0 with
      | ok rr =>
        cases hmsg : rr.messages <;> simp [loopGo, hcb', h0, mkFinal, hmsg]
      | error e =>
        by_cases hr : isRetryableError e
        · simp only [loopGo, hcb', h0, hr]
          simpa using loopGo_err_some_ne_nilPanic rc env m 1 rc.initialWait
            (some e) none e
        · simp [loopGo, hcb', h0, hr, mkFinal]
  · intro h
    have hz : rc.maxAttempts.toNat = 0 := by omega
    rw [completeLoop, hz]
    rfl

/-- C3 counterexample: an OpenAI backend response with HTTP status 500
but error code invalid_api_key is mapped by the special-code switch
(which precedes the status-range checks) to InvalidAPIKey with
retryable = false, not to ServiceUnavailable with retryable = true. -/
theorem provider_status_mapping_counterexample :
    errorsIs (openaiHandleError "gpt-4o" (.api 500 "invalid_api_key"))
        .serviceUnavailable = false
    ∧ errorsIs (openaiHandleError "gpt-4o" (.api 500 "invalid_api_key"))
        .invalidAPIKey = true
    ∧ errorsAsLLMRetryable
        (openaiHandleError "gpt-4o" (.api 500 "invalid_api_key")) =
        some false := by
  refine ⟨?_, ?_, ?_⟩ <;> decide

/-- C3 (amended).  Backend responses map by status range — 5xx to
ServiceUnavailable and 429 to TooManyRequests, both retryable = true —
unconditionally for the Ollama client, and for the OpenAI client
whenever the provider error code is not one of the five dedicated codes
whose switch takes precedence. -/
theorem provider_status_mapping (modelName code st emsg : String)
    (statusCode : Nat) (k : BaseErr)
    (hk : statusKindSpec statusCode = some k)
    (hcode : openaiSpecialCode code = false) :
    errorsIs (openaiHandleError modelName (.api statusCode code)) k = true
    ∧ errorsAsLLMRetryable
        (openaiHandleError modelName (.api statusCode code)) = some true
    ∧ errorsIs (ollamaHandleError modelName (.statusError statusCode st emsg))
        k = true
    ∧ errorsAsLLMRetryable
        (ollamaHandleError modelName (.statusError statusCode st emsg)) =
        some true := by
  simp only [openaiSpecialCode, Bool.or_eq_false_iff] at hcode
  obtain ⟨⟨⟨⟨h1, h2⟩, h3⟩, h4⟩, h5⟩ := hcode
  by_cases h5xx : 500 ≤ statusCode ∧ statusCode < 600
  · have hks : k = .serviceUnavailable := by
      simp [statusKindSpec, h5xx] at hk
      exact hk.symm
    subst hks
    refine ⟨?_, ?_, ?_, ?_⟩ <;>
      simp [openaiHandleError, ollamaHandleError, h1, h2, h3, h4, h5, h5xx,
        errorsIs, errorsAsLLMRetryable]
  · have h429 : statusCode = 429 ∧ k = .tooManyRequests := by
      simp [statusKindSpec, h5xx] at hk
      by_cases h9 : statusCode = 429
      · simp [h9] at hk
        exact ⟨h9, hk.symm⟩
      · simp [h9] at hk
    obtain ⟨h9, hks⟩ := h429
    subst hks
    subst h9
    refine ⟨?_, ?_, ?_, ?_⟩ <;>
      simp [openaiHandleError, ollamaHandleError, h1, h2, h3, h4, h5, h5xx,
        errorsIs, errorsAsLLMRetryable]

/-- Witness for C3 (amended) at status 503 with an empty error code. -/
theorem provider_status_mapping_witness :
    errorsIs (openaiHandleError "gpt-4o" (.api 503 "")) .serviceUnavailable = true
    ∧ errorsAsLLMRetryable (openaiHandleError "gpt-4o" (.api 503 "")) = some true
    ∧ errorsIs (ollamaHandleError "tiny-swallow" (.statusError 503 "503" "busy"))
        .serviceUnavailable = true
    ∧ errorsAsLLMRetryable
        (ollamaHandleError "tiny-swallow" (.statusError 503 "503" "busy")) =
        some true :=
  provider_status_mapping "gpt-4o" "" "503" "busy" 503 .serviceUnavailable
    (by decide) (by decide)

/-- Under no cancellation, the fallback loop on a non-empty remainder
is the spec's try-in-order function on that remainder (the seed error
is dead: it is superseded by the head model's own outcome). -/
theorem fbLoop_eq_fallbackSpec (env : FallbackEnv)
    (hnc : ∀ i, env.cancelBefore i = false) :
    ∀ (rest : List Model) (f : Model) (i : Nat) (e : GoError),
      fbLoop env i (f :: rest) e = fallbackSpec env.completeModel f rest := by
  intro rest
  induction rest with
  | nil =>
    intro f i e
    cases h : env.completeModel f with
    | ok r => simp [fbLoop, fallbackSpec, hnc i, h]
    | error e' => simp [fbLoop, fallbackSpec, hnc i, h]
  | cons g rest ih =>
    intro f i e
    cases h : env.completeModel f with
    | ok r => simp [fbLoop, fallbackSpec, hnc i, h]
    | error e' =>
      calc fbLoop env i (f :: g :: rest) e
          = ⟨f :: (fbLoop env (i + 1) (g :: rest) e').attempted,
              (fbLoop env (i + 1) (g :: rest) e').result⟩ := by
            conv_lhs => rw [fbLoop]
            simp [hnc i, h]
        _ = ⟨f :: (fallbackSpec env.completeModel g rest).attempted,
              (fallbackSpec env.completeModel g rest).result⟩ := by
            rw [ih g (i + 1) e']
        _ = fallbackSpec env.completeModel f (g :: rest) := by
            conv_rhs => rw [fallbackSpec]
            simp [h]

/-- C6.  Under no cancellation, CompleteWithFallback is exactly the
spec's try-in-order function: the primary and then each fallback model
in the caller-given order, short-circuiting on the first success, with
the trace listing the models actually attempted in order; when every
model fails, the last model's error is returned wrapped with the
all-models-failed marker (the primary's error when no fallbacks were
given). -/
theorem completeWithFallback_spec (env : FallbackEnv) (primaryModel : Model)
    (fallbackModels : List Model)
    (hnc : ∀ i, env.cancelBefore i = false) :
    CompleteWithFallback env primaryModel fallbackModels =
      fallbackSpec env.completeModel primaryModel fallbackModels := by
  cases fallbackModels with
  | nil =>
    cases h : env.completeModel primaryModel with
    | ok r => simp [CompleteWithFallback, fallbackSpec, h]
    | error e => simp [CompleteWithFallback, fallbackSpec, fbLoop, h]
  | cons f rest =>
    cases h : env.completeModel primaryModel with
    | ok r => simp [CompleteWithFallback, fallbackSpec, h]
    | error e =>
      simp [CompleteWithFallback, fallbackSpec, h,
        fbLoop_eq_fallbackSpec env hnc rest f 0 e]

/-- Witness for C6: a primary and one fallback, both failing. -/
theorem completeWithFallback_spec_witness :
    CompleteWithFallback fbEnvAllFail modelA [modelB] =
      fallbackSpec fbEnvAllFail.completeModel modelA [modelB] :=
  completeWithFallback_spec fbEnvAllFail modelA [modelB] (fun _ => rfl)

/-- A role the Ollama switch accepts is also accepted by the OpenAI
switch. -/
theorem openaiKnown_of_ollamaKnown {r : String}
    (h : ollamaKnownRole r = true) : openaiKnownRole r = true := by
  simp [ollamaKnownRole] at h
  simp [openaiKnownRole]
  tauto

/-- A list of OpenAI-accepted roles translates one-to-one in order. -/
theorem openaiConvert_ok (msgs : List Message)
    (h : msgs.all (fun m => openaiKnownRole m.role) = true) :
    openaiConvertMessages msgs = .ok (msgs.map openaiWireOf) := by
  induction msgs with
  | nil => rfl
  | cons m rest ih =>
    simp only [List.all_cons, Bool.and_eq_true] at h
    simp [openaiConvertMessages, h.1, ih h.2]

/-- A list of Ollama-accepted roles translates one-to-one in order. -/
theorem ollamaConvert_ok (msgs : List Message)
    (h : msgs.all (fun m => ollamaKnownRole m.role) = true) :
    ollamaConvertMessages msgs = .ok (msgs.map ollamaWireOf) := by
  induction msgs with
  | nil => rfl
  | cons m rest ih =>
    simp only [List.all_cons, Bool.and_eq_true] at h
    simp [ollamaConvertMessages, h.1, ih h.2]

/-- The OpenAI translation stops with the unsupported-role error at the
first unrecognized role. -/
theorem openaiConvert_err_at (good tail : List Message) (mBad : Message)
    (hgood : good.all (fun m => openaiKnownRole m.role) = true)
    (hbad : openaiKnownRole mBad.role = false) :
    openaiConvertMessages (good ++ mBad :: tail) =
      .error (.base (.other ("unsupported role: " ++ mBad.role))) := by
  induction good with
  | nil => simp [openaiConvertMessages, hbad]
  | cons g rest ih =>
    simp only [List.all_cons, Bool.and_eq_true] at hgood
    simp [openaiConvertMessages, hgood.1, ih hgood.2]

/-- The Ollama translation stops with the unsupported-role error at the
first role outside its three accepted roles. -/
theorem ollamaConvert_err_at (good tail : List Message) (mBad : Message)
    (hgood : good.all (fun m => ollamaKnownRole m.role) = true)
    (hbad : ollamaKnownRole mBad.role = false) :
    ollamaConvertMessages (good ++ mBad :: tail) =
      .error (.base (.other ("unsupported role: " ++ mBad.role))) := by
  induction good with
  | nil => simp [ollamaConvertMessages, hbad]
  | cons g rest ih =>
    simp only [List.all_cons, Bool.and_eq_true] at hgood
    simp [ollamaConvertMessages, hgood.1, ih hgood.2]

/-- C7 counterexample: the function role is one of the four known
roles and the OpenAI client translates it (to a user message carrying
the function result), yet the Ollama client's switch rejects it with
the unsupported-role input error. -/
theorem role_translation_counterexample :
    openaiKnownRole RoleFunction = true
    ∧ openaiConvertMessages [funcMsg] =
        .ok [.user "Function getAnswer returned: 42"]
    ∧ ollamaConvertMessages [funcMsg] =
        .error (.base (.other "unsupported role: function")) := by
  refine ⟨rfl, ?_, ?_⟩ <;> decide

/-- C7 (amended).  Messages whose roles a client's switch accepts are
translated one-to-one preserving order and role mapping (the OpenAI
client accepts all four known roles, translating function messages to
user messages; the Ollama client accepts only system, user and
assistant); a message list containing a role the switch rejects —
any unrecognized role for OpenAI, and additionally the function role
for Ollama — makes Complete return the unsupported-role input error of
the first rejected message, independently of the backend (no backend
call is consulted). -/
theorem client_role_translation (msgsO msgsL goodO goodL tailO tailL : List Message)
    (mBadO mBadL : Message) (modelName : String)
    (bkO bkO' : List OAIWire → Except OpenAIRaw (List Message))
    (bkL bkL' : List OllamaMsg → Except OllamaRaw (List Message))
    (hO : msgsO.all (fun m => openaiKnownRole m.role) = true)
    (hL : msgsL.all (fun m => ollamaKnownRole m.role) = true)
    (hgO : goodO.all (fun m => openaiKnownRole m.role) = true)
    (hbO : openaiKnownRole mBadO.role = false)
    (hgL : goodL.all (fun m => ollamaKnownRole m.role) = true)
    (hbL : ollamaKnownRole mBadL.role = false) :
    openaiConvertMessages msgsO = .ok (msgsO.map openaiWireOf)
    ∧ ollamaConvertMessages msgsL = .ok (msgsL.map ollamaWireOf)
    ∧ openaiClientComplete modelName { messages := goodO ++ mBadO :: tailO } bkO =
        .error (.base (.other ("unsupported role: " ++ mBadO.role)))
    ∧ openaiClientComplete modelName { messages := goodO ++ mBadO :: tailO } bkO =
        openaiClientComplete modelName { messages := goodO ++ mBadO :: tailO } bkO'
    ∧ ollamaClientComplete modelName { messages := goodL ++ mBadL :: tailL } bkL =
        .error (.base (.other ("unsupported role: " ++ mBadL.role)))
    ∧ ollamaClientComplete modelName { messages := goodL ++ mBadL :: tailL } bkL =
        ollamaClientComplete modelName { messages := goodL ++ mBadL :: tailL } bkL' := by
  have hcO := openaiConvert_err_at goodO tailO mBadO hgO hbO
  have hcL := ollamaConvert_err_at goodL tailL mBadL hgL hbL
  refine ⟨openaiConvert_ok msgsO hO, ollamaConvert_ok msgsL hL, ?_, ?_, ?_, ?_⟩
  · simp [openaiClientComplete, hcO]
  · simp [openaiClientComplete, hcO]
  · simp [ollamaClientComplete, hcL]
  · simp [ollamaClientComplete, hcL]

/-- Witness for C7 (amended): all-known-role lists for both clients, an
unknown role for OpenAI, the function role for Ollama, and two
distinct backends each. -/
theorem client_role_translation_witness :
    openaiConvertMessages
        [{ role := RoleSystem, content := "s" }, { role := RoleUser, content := "u" },
          { role := RoleAssistant, content := "a" }, funcMsg] =
      .ok ([{ role := RoleSystem, content := "s" }, { role := RoleUser, content := "u" },
          { role := RoleAssistant, content := "a" }, funcMsg].map openaiWireOf)
    ∧ ollamaConvertMessages
        [{ role := RoleSystem, content := "s" }, { role := RoleUser, content := "u" }] =
      .ok ([{ role := RoleSystem, content := "s" },
          { role := RoleUser, content := "u" }].map ollamaWireOf)
    ∧ openaiClientComplete "gpt-4o"
        { messages := [{ role := RoleUser, content := "u" }] ++ badRoleMsg :: [] }
        (fun _ => .ok []) =
        .error (.base (.other ("unsupported role: " ++ badRoleMsg.role)))
    ∧ openaiClientComplete "gpt-4o"
        { messages := [{ role := RoleUser, content := "u" }] ++ badRoleMsg :: [] }
        (fun _ => .ok []) =
        openaiClientComplete "gpt-4o"
          { messages := [{ role := RoleUser, content := "u" }] ++ badRoleMsg :: [] }
          (fun _ => .error (.plain "backend down"))
    ∧ ollamaClientComplete "tiny-swallow"
        { messages := [{ role := RoleUser, content := "u" }] ++ funcMsg :: [] }
        (fun _ => .ok []) =
        .error (.base (.other ("unsupported role: " ++ funcMsg.role)))
    ∧ ollamaClientComplete "tiny-swallow"
        { messages := [{ role := RoleUser, content := "u" }] ++ funcMsg :: [] }
        (fun _ => .ok []) =
        ollamaClientComplete "tiny-swallow"
          { messages := [{ role := RoleUser, content := "u" }] ++ funcMsg :: [] }
          (fun _ => .error (.plain "backend down")) :=
  client_role_translation
    [{ role := RoleSystem, content := "s" }, { role := RoleUser, content := "u" },
      { role := RoleAssistant, content := "a" }, funcMsg]
    [{ role := RoleSystem, content := "s" }, { role := RoleUser, content := "u" }]
    [{ role := RoleUser, content := "u" }] [{ role := RoleUser, content := "u" }]
    [] [] badRoleMsg funcMsg "gpt-4o"
    (fun _ => .ok []) (fun _ => .error (.plain "backend down"))
    (fun _ => .ok []) (fun _ => .error (.plain "backend down"))
    (by decide) (by decide) (by decide) (by decide) (by decide) (by decide)

/-- Membership in the registration map after RegisterLLM: the old keys
plus the newly registered models. -/
theorem mem_RegisterLLM (ms : List Model) :
    ∀ (st : List Model) (m : Model),
      m ∈ RegisterLLM st ms ↔ m ∈ st ∨ m ∈ ms := by
  induction ms with
  | nil => intro st m; simp [RegisterLLM]
  | cons a rest ih =>
    intro st m
    have hstep : RegisterLLM st (a :: rest) =
        RegisterLLM (if st.contains a then st else st.concat a) rest := rfl
    rw [hstep, ih]
    by_cases hc : st.contains a = true
    · have ha : a ∈ st := by simpa using hc
      simp only [hc, if_true, List.mem_cons]
      constructor
      · rintro (h | h)
        · exact Or.inl h
        · exact Or.inr (Or.inr h)
      · rintro (h | h | h)
        · exact Or.inl h
        · exact Or.inl (h ▸ ha)
        · exact Or.inr h
    · simp only [hc, if_false]
      simp [List.concat_eq_append]
      tauto
  
/-- C8.  Registration round-trip for a configuration-gated provider: an
Ollama model registered via RegisterLLM is absent from the registry
built from a configuration in which Ollama is unconfigured, and present
in the registry built from a configuration in which it is
configured. -/
theorem registry_roundtrip (st ms : List Model) (m : Model)
    (cfgOff cfgOn : Config)
    (hprov : m.provider = Ollama)
    (hm : m ∈ ms)
    (hoff : cfgOff.llm.ollama.IsConfigured = false)
    (hon : cfgOn.llm.ollama.IsConfigured = true) :
    (NewRegistry cfgOff (RegisterLLM st ms)).models.contains m = false
    ∧ (NewRegistry cfgOn (RegisterLLM st ms)).models.contains m = true := by
  have hmem : m ∈ RegisterLLM st ms := (mem_RegisterLLM ms st m).mpr (Or.inr hm)
  have hole : (m.provider == OpenAI) = false := by
    rw [hprov]
    decide
  have holl : (m.provider == Ollama) = true := by
    rw [hprov]
    decide
  constructor
  · have : m ∉ (NewRegistry cfgOff (RegisterLLM st ms)).models := by
      intro hin
      rw [NewRegistry] at hin
      have := (List.mem_filter.mp hin).2
      rw [hole, holl, hoff] at this
      simp at this
    simpa using this
  · have : m ∈ (NewRegistry cfgOn (RegisterLLM st ms)).models := by
      rw [NewRegistry]
      refine List.mem_filter.mpr ⟨hmem, ?_⟩
      rw [hole, holl, hon]
      simp
    simpa using this

/-- Witness for C8: the registered Ollama model ModelTinySwallow,
filtered under an empty and a non-empty base URL. -/
theorem registry_roundtrip_witness :
    (NewRegistry cfgNoOllama
        (RegisterLLM [] [ModelGPT4o, ModelTinySwallow])).models.contains
      ModelTinySwallow = false
    ∧ (NewRegistry cfgWithOllama
        (RegisterLLM [] [ModelGPT4o, ModelTinySwallow])).models.contains
      ModelTinySwallow = true :=
  registry_roundtrip [] [ModelGPT4o, ModelTinySwallow] ModelTinySwallow
    cfgNoOllama cfgWithOllama rfl (by decide) rfl rfl

/-- C9.  For a successful completion, the value Complete returns to the
caller does not depend on the telemetry sink's behavior or on whether
Langfuse is configured: two executions differing only in the sink's
outcome (HTTP 500, network failure, panic, success) return the
identical response; the result is exactly the retry loop's result; and
a sink answering HTTP 500 produces only the two telemetry-failure log
lines. -/
theorem complete_telemetry_independent (rc : RetryConfig) (env : CompleterEnv)
    (c c' : Bool) (s s' : SinkBehavior) (r : CompleteResponse)
    (hok : (completeLoop rc env).result = .ok r) :
    (completeWithTelemetry rc env c s).result =
      (completeWithTelemetry rc env c' s').result
    ∧ (completeWithTelemetry rc env c s).result = .ok r
    ∧ (completeWithTelemetry rc env true (.respond 500 0)).logs =
        ["failed to send trace events to Langfuse", "error sending telemetry"] := by
  refine ⟨?_, ?_, ?_⟩ <;>
    simp [completeWithTelemetry, hok, telemetryLogs, ingestAccepts]

/-- Witness for C9 at a first-attempt success. -/
theorem complete_telemetry_independent_witness :
    (completeWithTelemetry DefaultRetryConfig envOk true (.respond 500 0)).result =
      (completeWithTelemetry DefaultRetryConfig envOk false
        (.panicDuring "boom")).result
    ∧ (completeWithTelemetry DefaultRetryConfig envOk true
        (.respond 500 0)).result = .ok respOne
    ∧ (completeWithTelemetry DefaultRetryConfig envOk true (.respond 500 0)).logs =
        ["failed to send trace events to Langfuse", "error sending telemetry"] :=
  complete_telemetry_independent DefaultRetryConfig envOk true false
    (.respond 500 0) (.panicDuring "boom") respOne rfl
